import Mathlib

/-!
Shallow embedding of the order-checkout and payment-settlement core of the
kenebebh/ecommerce-with-typescript repository.

Embedded source files:
* product model (inventory sub-document, virtuals, instance methods)
* order model (sub-documents, pre-save hook, instance methods)
* order controller (createOrder, cancelOrder)
* payment controller (initializePayment, verifyPayment, handleWebhook,
  handleSuccessfulPayment, handleFailedPayment)
* paystack service (verifyWebhookSignature), with HMAC-SHA512 kept abstract
  as a function parameter.

Modelling conventions: JavaScript numbers holding quantities and prices are
modelled as `Int` (the mongoose `$inc` updates are unguarded and can drive
counters negative, which `Int` captures).  `Date` timestamps carry no logic
used by any claim and are omitted from timeline entries; `payment.paidAt`
is modelled as a `Bool` flag recording whether it was set.  MongoDB
collections are association lists; `findByIdAndUpdate` with `$inc` is a
map over the list that is a no-op when the id is absent, exactly like the
driver call.  A mongoose transaction is modelled by threading the session
state explicitly: the aborted branches of a controller return the original
database, the committed branch returns the session state.
-/

namespace Ecommerce

/-- Inventory sub-document of the product schema: `quantity` (on-hand),
`reserved`, `lowStockThreshold`. -/
structure Inventory where
  quantity : Int
  reserved : Int
  lowStockThreshold : Int
deriving Repr, DecidableEq

/-- Product document: the fields of the product schema that the checkout
and settlement paths read. -/
structure Product where
  name : String
  price : Int
  isActive : Bool
  image : String
  inventory : Inventory
deriving Repr, DecidableEq

/-- Virtual field `availableQuantity`: `Math.max(0, quantity - reserved)`. -/
def Product.availableQuantity (p : Product) : Int :=
  max 0 (p.inventory.quantity - p.inventory.reserved)

/-- Virtual field `isLowStock`: `availableQuantity <= lowStockThreshold`. -/
def Product.isLowStock (p : Product) : Bool :=
  p.availableQuantity ≤ p.inventory.lowStockThreshold

/-- Instance method `hasSufficientStock`: `availableQuantity >= quantity`. -/
def Product.hasSufficientStock (p : Product) (quantity : Int) : Bool :=
  p.availableQuantity ≥ quantity

/-- Instance method `reserveInventory`: throws when stock is insufficient;
otherwise it performs `reserved += quantity` and then
`reserved = reserved + quantity` again, exactly as the two consecutive
assignment lines of the source do. -/
def Product.reserveInventory (p : Product) (quantity : Int) :
    Except String Product :=
  if p.hasSufficientStock quantity = false then
    Except.error "Insufficient stock availableQuantity"
  else
    let inv1 := { p.inventory with reserved := p.inventory.reserved + quantity }
    let inv2 := { inv1 with reserved := inv1.reserved + quantity }
    Except.ok { p with inventory := inv2 }

/-- Instance method `releaseInventory`:
`reserved = Math.max(0, reserved - quantity)`. -/
def Product.releaseInventory (p : Product) (quantity : Int) : Product :=
  { p with inventory :=
      { p.inventory with
          reserved := max 0 (p.inventory.reserved - quantity) } }

/-- Instance method `deductInventory`: throws when `quantity` on hand is too
small; otherwise `quantity -= q; reserved = Math.max(0, reserved - q)`. -/
def Product.deductInventory (p : Product) (q : Int) : Except String Product :=
  if p.inventory.quantity < q then
    Except.error "Insufficient inventory to deduct"
  else
    Except.ok { p with inventory :=
      { p.inventory with
          quantity := p.inventory.quantity - q,
          reserved := max 0 (p.inventory.reserved - q) } }

/-- Order status enum of the order schema. -/
inductive OrderStatus
  | pending | confirmed | processing | shipped | delivered | cancelled | failed
deriving Repr, DecidableEq

/-- String stored in a timeline entry for a status (the timeline sub-schema
stores the status as a plain string). -/
def OrderStatus.toStr : OrderStatus → String
  | .pending => "pending"
  | .confirmed => "confirmed"
  | .processing => "processing"
  | .shipped => "shipped"
  | .delivered => "delivered"
  | .cancelled => "cancelled"
  | .failed => "failed"

/-- Payment status enum of the payment-info sub-schema. -/
inductive PaymentStatus
  | pending | completed | failed | refunded
deriving Repr, DecidableEq

/-- Order line-item snapshot sub-document. -/
structure OrderItem where
  productId : Nat
  name : String
  price : Int
  quantity : Int
  image : String
deriving Repr, DecidableEq

/-- Pricing sub-document. -/
structure Pricing where
  subtotal : Int
  shipping : Int
  tax : Int
  discount : Int
  total : Int
deriving Repr, DecidableEq

/-- Payment-info sub-document; `paidAt` records whether the date field was
set (the actual date value is real time and carries no logic). -/
structure PaymentInfo where
  method : String
  status : PaymentStatus
  transactionId : Option String
  reference : String
  paidAt : Bool
deriving Repr, DecidableEq

/-- Timeline entry sub-document (the `Date` timestamp is omitted, see the
header comment). -/
structure TimelineEntry where
  status : String
  note : Option String
deriving Repr, DecidableEq

/-- Order document.  `orderId` stands for the mongo `_id`. -/
structure Order where
  orderId : Nat
  orderNumber : String
  userId : Nat
  items : List OrderItem
  shippingAddress : String
  pricing : Pricing
  status : OrderStatus
  payment : PaymentInfo
  timeline : List TimelineEntry
deriving Repr, DecidableEq

/-- String.padStart as used by the pre-save hook. -/
def padStart (len : Nat) (c : Char) (s : String) : String :=
  if s.length ≥ len then s
  else String.mk (List.replicate (len - s.length) c) ++ s

/-- Order number built by the pre-save hook:
`` `ORD-${year}${month}${day}-${orderNum}` `` where `month`/`day` are
zero-padded to two digits and `orderNum` is `count + 1` zero-padded to five
digits, `count` being the number of orders already created that day. -/
def mkOrderNumber (year month day count : Nat) : String :=
  "ORD-" ++ toString year ++ padStart 2 '0' (toString month) ++
    padStart 2 '0' (toString day) ++ "-" ++
    padStart 5 '0' (toString (count + 1))

/-- Pre-save hook on a new order: generate the order number and push the
initial `pending / Order created` timeline entry. -/
def Order.preSave (o : Order) (year month day count : Nat) : Order :=
  { o with
      orderNumber := mkOrderNumber year month day count,
      timeline := o.timeline ++
        [{ status := "pending", note := some "Order created" }] }

/-- Instance method `updateStatus`: set the status and append a timeline
entry. -/
def Order.updateStatus (o : Order) (status : OrderStatus)
    (note : Option String) : Order :=
  { o with
      status := status,
      timeline := o.timeline ++ [{ status := status.toStr, note := note }] }

/-- Instance method `markAsPaid`: payment completed, transaction id and
paid-at recorded, order confirmed, timeline entry appended. -/
def Order.markAsPaid (o : Order) (transactionId : String) : Order :=
  { o with
      payment := { o.payment with
        status := PaymentStatus.completed,
        transactionId := some transactionId,
        paidAt := true },
      status := OrderStatus.confirmed,
      timeline := o.timeline ++
        [{ status := "confirmed", note := some "Payment confirmed" }] }

/-- Instance method `markAsFailed`: payment failed, order failed, timeline
entry appended with the gateway reason (default "Payment failed"). -/
def Order.markAsFailed (o : Order) (reason : Option String) : Order :=
  { o with
      payment := { o.payment with status := PaymentStatus.failed },
      status := OrderStatus.failed,
      timeline := o.timeline ++
        [{ status := "failed", note := some (reason.getD "Payment failed") }] }

/-- Instance method `cancelOrder`: only a pending order can be cancelled;
otherwise the method throws. -/
def Order.cancelOrder (o : Order) (reason : Option String) :
    Except String Order :=
  if o.status = OrderStatus.pending then
    Except.ok { o with
      status := OrderStatus.cancelled,
      timeline := o.timeline ++
        [{ status := "cancelled",
           note := some (reason.getD "Order cancelled by user") }] }
  else
    Except.error "Cannot cancel order that is already confirmed, processed or shipped"

/-- Instance method `canBeCancelled`: pending orders only. -/
def Order.canBeCancelled (o : Order) : Bool :=
  o.status = OrderStatus.pending

/-- Persistent state: the product collection (association list keyed by
product id) and the order collection. -/
structure DB where
  products : List (Nat × Product)
  orders : List Order
deriving Repr, DecidableEq

/-- Product lookup (`findById` / `populate`): first entry with the id. -/
def findProduct : List (Nat × Product) → Nat → Option Product
  | [], _ => none
  | e :: rest, pid => if e.1 = pid then some e.2 else findProduct rest pid

/-- `Product.findByIdAndUpdate`: apply `f` to the product with id `pid`;
a no-op when the id is absent. -/
def updateProduct : List (Nat × Product) → Nat → (Product → Product) →
    List (Nat × Product)
  | [], _, _ => []
  | e :: rest, pid, f =>
    (if e.1 = pid then (e.1, f e.2) else e) :: updateProduct rest pid f

/-- `Order.findOne({"payment.reference": ref})`. -/
def findOrderByRef (orders : List Order) (ref : String) : Option Order :=
  orders.find? (fun o => o.payment.reference == ref)

/-- `Order.findOne({_id: orderId, userId})`. -/
def findOrderById (orders : List Order) (orderId userId : Nat) :
    Option Order :=
  orders.find? (fun o => o.orderId == orderId && o.userId == userId)

/-- Persist a mutated order document, located by its unique payment
reference. -/
def updateOrderByRef (orders : List Order) (ref : String) (o1 : Order) :
    List Order :=
  orders.map (fun o => if o.payment.reference == ref then o1 else o)

/-- Persist a mutated order document, located by id and owner. -/
def updateOrderById (orders : List Order) (orderId userId : Nat)
    (o1 : Order) : List Order :=
  orders.map (fun o =>
    if o.orderId == orderId && o.userId == userId then o1 else o)

/-- Cart line as read by checkout after `populate`: the product id, the
requested quantity, and the price stored in the cart (which `createOrder`
never reads — it snapshots the current catalog price instead). -/
structure CartLine where
  productId : Nat
  quantity : Int
  cartPrice : Int
deriving Repr, DecidableEq

/-- Validation errors of the checkout loop. -/
inductive CreateOrderErr
  | productUnavailable (name : String)
  | insufficientStock (name : String) (available : Int)
deriving Repr, DecidableEq

/-- Per-line session update of the checkout loop:
`$inc: {"inventory.reserved": item.quantity}`. -/
def reserveUpd (qty : Int) (p : Product) : Product :=
  { p with inventory :=
      { p.inventory with reserved := p.inventory.reserved + qty } }

/-- Per-line session update of the settlement success path:
`$inc: {"inventory.quantity": -qty, "inventory.reserved": -qty}`. -/
def deductUpd (qty : Int) (p : Product) : Product :=
  { p with inventory :=
      { p.inventory with
          quantity := p.inventory.quantity - qty,
          reserved := p.inventory.reserved - qty } }

/-- Per-line session update of the settlement failure and cancellation
paths: `$inc: {"inventory.reserved": -qty}` (no clamp at zero). -/
def releaseUpd (qty : Int) (p : Product) : Product :=
  { p with inventory :=
      { p.inventory with reserved := p.inventory.reserved - qty } }

/-- Loop over the line items of an order applying one of the `$inc` updates per
line, in order. -/
def applyItems (upd : Int → Product → Product)
    (ps : List (Nat × Product)) (items : List OrderItem) :
    List (Nat × Product) :=
  items.foldl (fun acc it => updateProduct acc it.productId (upd it.quantity)) ps

/-- Validation-and-reservation loop of `createOrder`.  The stock checks read
the populated (pre-transaction) products `orig`, while the reservations
accumulate on the session state `sess`; the loop also accumulates the
snapshotted order items and the subtotal. -/
def checkoutLoop (orig : List (Nat × Product)) :
    List CartLine → List (Nat × Product) → List OrderItem → Int →
    Except CreateOrderErr (List (Nat × Product) × List OrderItem × Int)
  | [], sess, items, subtotal => Except.ok (sess, items, subtotal)
  | line :: rest, sess, items, subtotal =>
    match findProduct orig line.productId with
    | none => Except.error (CreateOrderErr.productUnavailable "unknown")
    | some p =>
      if p.isActive = false then
        Except.error (CreateOrderErr.productUnavailable p.name)
      else if p.hasSufficientStock line.quantity = false then
        Except.error
          (CreateOrderErr.insufficientStock p.name p.availableQuantity)
      else
        checkoutLoop orig rest
          (updateProduct sess line.productId (reserveUpd line.quantity))
          (items ++ [{ productId := line.productId, name := p.name,
                       price := p.price, quantity := line.quantity,
                       image := p.image }])
          (subtotal + p.price * line.quantity)

/-- Responses of `OrderController.createOrder` (the authenticated-user and
cart-lookup plumbing is outside the claims; the cart snapshot of the caller is
an input). -/
inductive CreateOrderResult
  | emptyCart
  | err (e : CreateOrderErr)
  | created (o : Order)
deriving Repr, DecidableEq

def CreateOrderResult.isCreated : CreateOrderResult → Bool
  | .created _ => true
  | _ => false

/-- Free-shipping threshold of the pricing step (naira). -/
def freeShippingThreshold : Int := 10000

/-- Flat shipping fee below the threshold (naira). -/
def flatShippingFee : Int := 1500

/-- `OrderController.createOrder`: validate and reserve every cart line in
one transaction, snapshot prices, compute pricing, insert the pending
order, then commit.  Any failure aborts the transaction, so the original
database is returned unchanged on every non-created result.  `reference`
is the generated payment reference; `newOrderId` the fresh `_id`;
`year`/`month`/`day`/`todayCount` feed the pre-save hook. -/
def OrderController.createOrder (db : DB) (userId : Nat)
    (cart : List CartLine) (shippingAddress : String) (reference : String)
    (newOrderId year month day todayCount : Nat) :
    CreateOrderResult × DB :=
  if cart = [] then (CreateOrderResult.emptyCart, db)
  else
    match checkoutLoop db.products cart db.products [] 0 with
    | Except.error e => (CreateOrderResult.err e, db)
    | Except.ok (sess, items, subtotal) =>
      let shipping : Int :=
        if subtotal ≥ freeShippingThreshold then 0 else flatShippingFee
      let tax : Int := 0
      let discount : Int := 0
      let total : Int := subtotal + shipping + tax - discount
      let order0 : Order :=
        { orderId := newOrderId, orderNumber := "", userId := userId,
          items := items, shippingAddress := shippingAddress,
          pricing := { subtotal := subtotal, shipping := shipping,
                       tax := tax, discount := discount, total := total },
          status := OrderStatus.pending,
          payment := { method := "paystack",
                       status := PaymentStatus.pending,
                       transactionId := none, reference := reference,
                       paidAt := false },
          timeline := [] }
      let order := order0.preSave year month day todayCount
      (CreateOrderResult.created order,
       { products := sess, orders := db.orders ++ [order] })

/-- Responses of `OrderController.cancelOrder`. -/
inductive CancelResp
  | orderNotFound
  | cannotCancel
  | cancelled (o : Order)
  | errorThrown (msg : String)
deriving Repr, DecidableEq

/-- `OrderController.cancelOrder`: look up the order by id and owner, bail
out unless `canBeCancelled`, release the reservation of each line in the
session, cancel the order, commit.  A throw from the instance method would
abort the transaction (that branch is unreachable because the guard was
already checked). -/
def OrderController.cancelOrder (db : DB) (userId orderId : Nat)
    (reason : Option String) : CancelResp × DB :=
  match findOrderById db.orders orderId userId with
  | none => (CancelResp.orderNotFound, db)
  | some order =>
    if order.canBeCancelled = false then (CancelResp.cannotCancel, db)
    else
      match order.cancelOrder reason with
      | Except.error msg => (CancelResp.errorThrown msg, db)
      | Except.ok order1 =>
        (CancelResp.cancelled order1,
         { products := applyItems releaseUpd db.products order.items,
           orders := updateOrderById db.orders orderId userId order1 })

/-- Payload data of the gateway verify response that the controller
reads. -/
structure GatewayVerifyData where
  id : Nat
  status : String
  gatewayResponse : String
deriving Repr, DecidableEq

/-- Responses of `PaymentController.verifyPayment` once a reference was
supplied. -/
inductive VerifyResp
  | verificationFailed
  | orderNotFound
  | alreadyProcessed (o : Order)
  | verified (o : Order)
  | paymentFailed (o : Order) (reason : String)
deriving Repr, DecidableEq

/-- `PaymentController.verifyPayment`: verify with the gateway, look the
order up by payment reference, return early when `payment.status` is
already `completed`; on a gateway `success` mark the order paid and deduct
`quantity` and `reserved` per line; on any other gateway status mark the
order failed and release `reserved` per line.  `gatewayOk` is
`verification.status` of the gateway response.  (The cart-clearing call on
the success path touches only the external cart collaborator and is not
part of the modelled state.) -/
def PaymentController.verifyPayment (db : DB) (reference : String)
    (gatewayOk : Bool) (v : GatewayVerifyData) : VerifyResp × DB :=
  if gatewayOk = false then (VerifyResp.verificationFailed, db)
  else
    match findOrderByRef db.orders reference with
    | none => (VerifyResp.orderNotFound, db)
    | some order =>
      if order.payment.status = PaymentStatus.completed then
        (VerifyResp.alreadyProcessed order, db)
      else if v.status = "success" then
        let order1 := order.markAsPaid (toString v.id)
        (VerifyResp.verified order1,
         { products := applyItems deductUpd db.products order.items,
           orders := updateOrderByRef db.orders reference order1 })
      else
        let order1 := order.markAsFailed (some v.gatewayResponse)
        (VerifyResp.paymentFailed order1 v.gatewayResponse,
         { products := applyItems releaseUpd db.products order.items,
           orders := updateOrderByRef db.orders reference order1 })

/-- Webhook event data the two handlers read. -/
structure WebhookData where
  reference : String
  id : Nat
  gatewayResponse : String
deriving Repr, DecidableEq

/-- `PaymentController.handleSuccessfulPayment`: no-op when the order is
missing or `payment.status` is already `completed`; otherwise mark paid and
deduct `quantity` and `reserved` per line. -/
def PaymentController.handleSuccessfulPayment (db : DB) (d : WebhookData) :
    DB :=
  match findOrderByRef db.orders d.reference with
  | none => db
  | some order =>
    if order.payment.status = PaymentStatus.completed then db
    else
      { products := applyItems deductUpd db.products order.items,
        orders := updateOrderByRef db.orders d.reference
          (order.markAsPaid (toString d.id)) }

/-- `PaymentController.handleFailedPayment`: no-op when the order is
missing or `payment.status` is already `failed`; otherwise mark failed and
release `reserved` per line. -/
def PaymentController.handleFailedPayment (db : DB) (d : WebhookData) :
    DB :=
  match findOrderByRef db.orders d.reference with
  | none => db
  | some order =>
    if order.payment.status = PaymentStatus.failed then db
    else
      { products := applyItems releaseUpd db.products order.items,
        orders := updateOrderByRef db.orders d.reference
          (order.markAsFailed (some d.gatewayResponse)) }

/-- Webhook event discriminator (`event.event`). -/
inductive WebhookEventKind
  | chargeSuccess | chargeFailed | transferSuccess | transferFailed
  | other (name : String)
deriving Repr, DecidableEq

/-- HTTP outcome of the webhook endpoint: 401 invalid-signature, or the
unconditional `200 {success:true}` acknowledgement. -/
inductive WebhookResp
  | unauthorized
  | acknowledged
deriving Repr, DecidableEq

/-- `PaymentController.handleWebhook`: authenticate the
`x-paystack-signature` header against the HMAC-SHA512 of the JSON payload
(the HMAC under the shared secret is the abstract parameter `hmacSha512`,
as in `PaystackService.verifyWebhookSignature`); on a bad signature answer
401; otherwise dispatch on the event kind (transfer and unknown events are
logged and ignored) and always answer 200 — a handler throw
(`handlerThrows`) aborts the transaction but is caught and still answered
with 200. -/
def PaymentController.handleWebhook (hmacSha512 : String → String)
    (db : DB) (signature payload : String) (kind : WebhookEventKind)
    (d : WebhookData) (handlerThrows : Bool) : WebhookResp × DB :=
  if (hmacSha512 payload == signature) = false then
    (WebhookResp.unauthorized, db)
  else if handlerThrows then (WebhookResp.acknowledged, db)
  else
    match kind with
    | WebhookEventKind.chargeSuccess =>
      (WebhookResp.acknowledged, PaymentController.handleSuccessfulPayment db d)
    | WebhookEventKind.chargeFailed =>
      (WebhookResp.acknowledged, PaymentController.handleFailedPayment db d)
    | _ => (WebhookResp.acknowledged, db)

/-- Responses of the payment-initialization endpoint; `gatewayCalled`
carries the arguments of the outbound `PaystackService` initialize call and
is the only branch that contacts the gateway. -/
inductive InitPaymentResp
  | orderNotFound
  | alreadyPaid
  | notPayable
  | gatewayCalled (email : String) (amount : Int) (reference : String)
deriving Repr, DecidableEq

/-- Payment-initialization endpoint of the payment controller: look the
order up by id and owner, reject already-paid orders and
cancelled-or-failed orders before the gateway is contacted, otherwise call
the gateway with the order total and payment reference.  The endpoint
performs no database write on any path. -/
def PaymentController.initPayment (db : DB) (userId orderId : Nat)
    (email : String) : InitPaymentResp × DB :=
  match findOrderById db.orders orderId userId with
  | none => (InitPaymentResp.orderNotFound, db)
  | some order =>
    if order.payment.status = PaymentStatus.completed then
      (InitPaymentResp.alreadyPaid, db)
    else if order.status = OrderStatus.cancelled ∨
        order.status = OrderStatus.failed then
      (InitPaymentResp.notPayable, db)
    else
      (InitPaymentResp.gatewayCalled email order.pricing.total
        order.payment.reference, db)

/-- Total quantity over the order lines that reference a given product. -/
def itemsQty : List OrderItem → Nat → Int
  | [], _ => 0
  | it :: rest, pid =>
    (if it.productId = pid then it.quantity else 0) + itemsQty rest pid

/-- Sum over order lines of unit price times quantity. -/
def sumLines : List OrderItem → Int
  | [] => 0
  | it :: rest => it.price * it.quantity + sumLines rest

/-- Payment status of the order holding a given payment reference. -/
def paymentStatusOfRef (db : DB) (ref : String) : Option PaymentStatus :=
  (findOrderByRef db.orders ref).map (fun o => o.payment.status)

/-- Inventory invariant stated by the spec: `0 ≤ reserved ≤ onHand`. -/
def InvariantInv (inv : Inventory) : Prop :=
  0 ≤ inv.reserved ∧ inv.reserved ≤ inv.quantity

instance (inv : Inventory) : Decidable (InvariantInv inv) := by
  unfold InvariantInv; infer_instance

theorem findProduct_updateProduct (ps : List (Nat × Product))
    (pid pid2 : Nat) (f : Product → Product) :
    findProduct (updateProduct ps pid f) pid2 =
      if pid2 = pid then (findProduct ps pid2).map f
      else findProduct ps pid2 := by
  induction ps with
  | nil => by_cases h : pid2 = pid <;> simp [findProduct, updateProduct, h]
  | cons e rest ih =>
    simp only [updateProduct]
    by_cases he : e.1 = pid
    · subst he
      simp only [if_pos rfl]
      by_cases h2 : e.1 = pid2
      · subst h2
        simp [findProduct]
      · have h2s : pid2 ≠ e.1 := fun h => h2 h.symm
        simp [findProduct, h2, h2s, ih]
    · by_cases h2 : e.1 = pid2
      · subst h2
        have h1 : ¬(e.1 = pid) := he
        simp [findProduct, he, h1]
      · simp [findProduct, he, h2, ih]

theorem applyItems_release (items : List OrderItem)
    (ps : List (Nat × Product)) (pid : Nat) :
    findProduct (applyItems releaseUpd ps items) pid =
      (findProduct ps pid).map (fun p =>
        { p with inventory :=
            { p.inventory with
                reserved := p.inventory.reserved - itemsQty items pid } }) := by
  induction items generalizing ps with
  | nil =>
    cases hfp : findProduct ps pid with
    | none => simp [applyItems, hfp]
    | some p => simp [applyItems, itemsQty, hfp]
  | cons it rest ih =>
    have hstep : applyItems releaseUpd ps (it :: rest) =
        applyItems releaseUpd
          (updateProduct ps it.productId (releaseUpd it.quantity)) rest := rfl
    rw [hstep, ih, findProduct_updateProduct]
    by_cases h : pid = it.productId
    · have h2 : it.productId = pid := h.symm
      cases hfp : findProduct ps pid with
      | none => simp [h, hfp]
      | some p =>
        simp only [if_pos h, hfp, Option.map_some, itemsQty, if_pos h2]
        simp [releaseUpd, sub_sub]
    · have h2 : ¬(it.productId = pid) := fun hc => h hc.symm
      cases hfp : findProduct ps pid with
      | none => simp [h, hfp]
      | some p => simp [h, hfp, itemsQty, h2]

theorem applyItems_deduct (items : List OrderItem)
    (ps : List (Nat × Product)) (pid : Nat) :
    findProduct (applyItems deductUpd ps items) pid =
      (findProduct ps pid).map (fun p =>
        { p with inventory :=
            { p.inventory with
                quantity := p.inventory.quantity - itemsQty items pid,
                reserved := p.inventory.reserved - itemsQty items pid } }) := by
  induction items generalizing ps with
  | nil =>
    cases hfp : findProduct ps pid with
    | none => simp [applyItems, hfp]
    | some p => simp [applyItems, itemsQty, hfp]
  | cons it rest ih =>
    have hstep : applyItems deductUpd ps (it :: rest) =
        applyItems deductUpd
          (updateProduct ps it.productId (deductUpd it.quantity)) rest := rfl
    rw [hstep, ih, findProduct_updateProduct]
    by_cases h : pid = it.productId
    · have h2 : it.productId = pid := h.symm
      cases hfp : findProduct ps pid with
      | none => simp [h, hfp]
      | some p =>
        simp only [if_pos h, hfp, Option.map_some, itemsQty, if_pos h2]
        simp [deductUpd, sub_sub]
    · have h2 : ¬(it.productId = pid) := fun hc => h hc.symm
      cases hfp : findProduct ps pid with
      | none => simp [h, hfp]
      | some p => simp [h, hfp, itemsQty, h2]

theorem checkoutLoop_spec (cart : List CartLine)
    (orig sess : List (Nat × Product)) (items0 : List OrderItem)
    (sub0 : Int) (sess1 : List (Nat × Product)) (items1 : List OrderItem)
    (sub1 : Int)
    (h : checkoutLoop orig cart sess items0 sub0 =
      Except.ok (sess1, items1, sub1)) :
    ∃ extra, items1 = items0 ++ extra ∧ sub1 = sub0 + sumLines extra ∧
      ∀ it ∈ extra, ∃ line, line ∈ cart ∧ ∃ p,
        findProduct orig line.productId = some p ∧ p.isActive = true ∧
        it = { productId := line.productId, name := p.name, price := p.price,
               quantity := line.quantity, image := p.image } := by
  induction cart generalizing sess items0 sub0 with
  | nil =>
    simp only [checkoutLoop, Except.ok.injEq, Prod.mk.injEq] at h
    obtain ⟨-, h2, h3⟩ := h
    exact ⟨[], by simp [← h2], by simp [← h3, sumLines], by simp⟩
  | cons line rest ih =>
    simp only [checkoutLoop] at h
    split at h
    · exact absurd h (by simp)
    · rename_i p hfp
      split at h
      · exact absurd h (by simp)
      · rename_i ha
        split at h
        · exact absurd h (by simp)
        · obtain ⟨extra, he1, he2, he3⟩ := ih _ _ _ h
          have ha1 : p.isActive = true := by simpa using ha
          refine ⟨{ productId := line.productId, name := p.name,
                    price := p.price, quantity := line.quantity,
                    image := p.image } :: extra, ?_, ?_, ?_⟩
          · rw [he1]; simp
          · rw [he2]; simp [sumLines]; ring
          · intro it hit
            rcases List.mem_cons.mp hit with hit | hit
            · exact ⟨line, List.mem_cons_self line rest, p, hfp, ha1, hit⟩
            · obtain ⟨line1, hl1, hrest⟩ := he3 it hit
              exact ⟨line1, List.mem_cons_of_mem line hl1, hrest⟩

/-- C2: the reserve contract of the spec says a successful reservation performs
`reserved += qty` exactly; the instance method `reserveInventory` instead
increments `reserved` twice (`reserved += qty` followed by
`reserved = reserved + qty`).  Evaluated at a product with on-hand 5 and
reserved 0, reserving 3 units leaves `reserved = 6` instead of 3. -/
theorem reserveInventory_double_increments :
    Product.reserveInventory
      { name := "Widget", price := 1000, isActive := true, image := "",
        inventory := { quantity := 5, reserved := 0, lowStockThreshold := 2 } }
      3 =
    Except.ok
      { name := "Widget", price := 1000, isActive := true, image := "",
        inventory :=
          { quantity := 5, reserved := 6, lowStockThreshold := 2 } } := by
  rfl

/-- C3 (counterexample): from a state satisfying `0 ≤ reserved ≤ onHand`
(on-hand 4, reserved 1), a successful `reserveInventory` of 2 units — a
state reachable through the reserve operation named by the claim — yields
`reserved = 5 > 4 = onHand`, violating the invariant. -/
theorem reserveInventory_violates_invariant :
    InvariantInv { quantity := 4, reserved := 1, lowStockThreshold := 1 } ∧
    Product.reserveInventory
      { name := "Gizmo", price := 700, isActive := true, image := "",
        inventory := { quantity := 4, reserved := 1, lowStockThreshold := 1 } }
      2 =
    Except.ok
      { name := "Gizmo", price := 700, isActive := true, image := "",
        inventory :=
          { quantity := 4, reserved := 5, lowStockThreshold := 1 } } ∧
    ¬ InvariantInv { quantity := 4, reserved := 5, lowStockThreshold := 1 } := by
  exact ⟨by decide, rfl, by decide⟩

/-- C3 (amended): the derived `availableQuantity` is clamped at zero and is
never negative in any state; and the operations that keep their guard and
their arithmetic consistent — the guarded checkout-path
`reserved += qty` reservation, the clamped `releaseInventory`, and the
guarded `deductInventory` — each preserve `0 ≤ reserved ≤ onHand`.  (The
double-incrementing `reserveInventory` and the unclamped `$inc` decrements
of the settlement and cancellation paths do not, per the counterexample.) -/
theorem inventory_ops_preserve_invariant :
    (∀ p : Product, 0 ≤ p.availableQuantity) ∧
    (∀ (p : Product) (qty : Int), InvariantInv p.inventory → 0 ≤ qty →
      p.hasSufficientStock qty = true →
      InvariantInv (reserveUpd qty p).inventory) ∧
    (∀ (p : Product) (qty : Int), InvariantInv p.inventory → 0 ≤ qty →
      InvariantInv (p.releaseInventory qty).inventory) ∧
    (∀ (p : Product) (q : Int) (p1 : Product), InvariantInv p.inventory →
      p.deductInventory q = Except.ok p1 →
      InvariantInv p1.inventory) := by
  refine ⟨?_, ?_, ?_, ?_⟩
  · intro p
    exact le_max_left 0 _
  · intro p qty hinv hq hs
    obtain ⟨h1, h2⟩ := hinv
    have hs1 : qty ≤ p.availableQuantity := by
      simpa [Product.hasSufficientStock] using hs
    have hmax : p.availableQuantity =
        p.inventory.quantity - p.inventory.reserved := by
      unfold Product.availableQuantity
      exact max_eq_right (by omega)
    rw [hmax] at hs1
    show 0 ≤ p.inventory.reserved + qty ∧
      p.inventory.reserved + qty ≤ p.inventory.quantity
    omega
  · intro p qty hinv hq
    obtain ⟨h1, h2⟩ := hinv
    show 0 ≤ max 0 (p.inventory.reserved - qty) ∧
      max 0 (p.inventory.reserved - qty) ≤ p.inventory.quantity
    omega
  · intro p q p1 hinv hd
    obtain ⟨h1, h2⟩ := hinv
    simp only [Product.deductInventory] at hd
    split at hd
    · exact absurd hd (by simp)
    · rename_i hq
      have h3 : ¬(p.inventory.quantity < q) := hq
      cases hd
      show 0 ≤ max 0 (p.inventory.reserved - q) ∧
        max 0 (p.inventory.reserved - q) ≤ p.inventory.quantity - q
      omega

/-- Witness for the amended C3 theorem at a concrete product with on-hand
5 and reserved 1. -/
theorem inventory_ops_preserve_invariant_witness :
    (0 : Int) ≤ Product.availableQuantity
      { name := "W", price := 10, isActive := true, image := "",
        inventory := { quantity := 5, reserved := 1, lowStockThreshold := 2 } } ∧
    InvariantInv (reserveUpd 2
      { name := "W", price := 10, isActive := true, image := "",
        inventory :=
          { quantity := 5, reserved := 1, lowStockThreshold := 2 } }).inventory ∧
    InvariantInv (Product.releaseInventory
      { name := "W", price := 10, isActive := true, image := "",
        inventory := { quantity := 5, reserved := 1, lowStockThreshold := 2 } }
      1).inventory ∧
    InvariantInv { quantity := 4, reserved := 0, lowStockThreshold := 2 } :=
  ⟨inventory_ops_preserve_invariant.1 _,
   inventory_ops_preserve_invariant.2.1
     { name := "W", price := 10, isActive := true, image := "",
       inventory := { quantity := 5, reserved := 1, lowStockThreshold := 2 } }
     2 (by decide) (by decide) (by decide),
   inventory_ops_preserve_invariant.2.2.1
     { name := "W", price := 10, isActive := true, image := "",
       inventory := { quantity := 5, reserved := 1, lowStockThreshold := 2 } }
     1 (by decide) (by decide),
   inventory_ops_preserve_invariant.2.2.2
     { name := "W", price := 10, isActive := true, image := "",
       inventory := { quantity := 5, reserved := 1, lowStockThreshold := 2 } }
     1
     { name := "W", price := 10, isActive := true, image := "",
       inventory := { quantity := 4, reserved := 0, lowStockThreshold := 2 } }
     (by decide) rfl⟩

/-- Sample order whose payment already completed, used to exercise the
settlement guards. -/
def wOrder1 : Order :=
  { orderId := 1, orderNumber := "ORD-20260101-00001", userId := 7,
    items := [{ productId := 1, name := "Widget", price := 1000,
                quantity := 3, image := "" }],
    shippingAddress := "addr",
    pricing := { subtotal := 3000, shipping := 1500, tax := 0,
                 discount := 0, total := 4500 },
    status := OrderStatus.confirmed,
    payment := { method := "paystack", status := PaymentStatus.completed,
                 transactionId := some "42", reference := "REFW1",
                 paidAt := true },
    timeline := [] }

/-- Database holding `wOrder1`. -/
def wDb1 : DB := { products := [], orders := [wOrder1] }

/-- Sample order whose payment already failed. -/
def wOrder2 : Order :=
  { orderId := 2, orderNumber := "ORD-20260101-00002", userId := 7,
    items := [{ productId := 1, name := "Widget", price := 1000,
                quantity := 3, image := "" }],
    shippingAddress := "addr",
    pricing := { subtotal := 3000, shipping := 1500, tax := 0,
                 discount := 0, total := 4500 },
    status := OrderStatus.failed,
    payment := { method := "paystack", status := PaymentStatus.failed,
                 transactionId := none, reference := "REFW2",
                 paidAt := false },
    timeline := [] }

/-- Database holding `wOrder2`. -/
def wDb2 : DB := { products := [], orders := [wOrder2] }

/-- Failed order with its reservation already released, together with its
product, as left behind by a first failure settlement. -/
def cDb1 : DB :=
  { products := [(1, { name := "Widget", price := 1000, isActive := true,
                       image := "",
                       inventory := { quantity := 5, reserved := 0,
                                      lowStockThreshold := 10 } })],
    orders := [{ orderId := 3, orderNumber := "ORD-20260101-00003",
                 userId := 7,
                 items := [{ productId := 1, name := "Widget",
                             price := 1000, quantity := 3, image := "" }],
                 shippingAddress := "addr",
                 pricing := { subtotal := 3000, shipping := 1500, tax := 0,
                              discount := 0, total := 4500 },
                 status := OrderStatus.failed,
                 payment := { method := "paystack",
                              status := PaymentStatus.failed,
                              transactionId := none, reference := "REFC1",
                              paidAt := false },
                 timeline := [] }] }

/-- C1 (counterexample): the synchronous verify entry point has no
already-`failed` guard.  In `cDb1` the order field `payment.status` is already
`failed`, yet a second failure outcome delivered through `verifyPayment`
is not a no-op: it changes the database again — the `reserved`
counter of the product is decremented a second time (from 0 to -3). -/
theorem verifyPayment_failed_event_not_noop :
    paymentStatusOfRef cDb1 "REFC1" = some PaymentStatus.failed ∧
    (PaymentController.verifyPayment cDb1 "REFC1" true
        { id := 9, status := "failed", gatewayResponse := "Declined" }).2 ≠
      cDb1 ∧
    findProduct (PaymentController.verifyPayment cDb1 "REFC1" true
        { id := 9, status := "failed", gatewayResponse := "Declined" }).2.products
        1 =
      some { name := "Widget", price := 1000, isActive := true, image := "",
             inventory := { quantity := 5, reserved := -3,
                            lowStockThreshold := 10 } } := by
  refine ⟨rfl, ?_, rfl⟩
  decide

/-- C1 (amended): the idempotency guards that exist hold — a success
outcome for an order already `completed` is a no-op on both entry points
(`verifyPayment` answers `alreadyProcessed` with the stored order and an
unchanged database; the webhook success handler leaves the database
unchanged), and a failure outcome for an order already `failed` is a no-op
on the webhook entry point.  The synchronous verify entry point checks only
the `completed` guard, so re-applying a failure outcome through it is not a
no-op (see the counterexample). -/
theorem settlement_noop_guards :
    (∀ (db : DB) (ref : String) (v : GatewayVerifyData) (o : Order),
      findOrderByRef db.orders ref = some o →
      o.payment.status = PaymentStatus.completed →
      PaymentController.verifyPayment db ref true v =
        (VerifyResp.alreadyProcessed o, db)) ∧
    (∀ (db : DB) (d : WebhookData) (o : Order),
      findOrderByRef db.orders d.reference = some o →
      o.payment.status = PaymentStatus.completed →
      PaymentController.handleSuccessfulPayment db d = db) ∧
    (∀ (db : DB) (d : WebhookData) (o : Order),
      findOrderByRef db.orders d.reference = some o →
      o.payment.status = PaymentStatus.failed →
      PaymentController.handleFailedPayment db d = db) := by
  refine ⟨?_, ?_, ?_⟩
  · intro db ref v o hf hc
    simp [PaymentController.verifyPayment, hf, hc]
  · intro db d o hf hc
    simp [PaymentController.handleSuccessfulPayment, hf, hc]
  · intro db d o hf hc
    simp [PaymentController.handleFailedPayment, hf, hc]

/-- Witness for the amended C1 theorem on the concrete databases `wDb1`
(completed order) and `wDb2` (failed order). -/
theorem settlement_noop_guards_witness :
    PaymentController.verifyPayment wDb1 "REFW1" true
        { id := 9, status := "success", gatewayResponse := "ok" } =
      (VerifyResp.alreadyProcessed wOrder1, wDb1) ∧
    PaymentController.handleSuccessfulPayment wDb1
        { reference := "REFW1", id := 9, gatewayResponse := "ok" } = wDb1 ∧
    PaymentController.handleFailedPayment wDb2
        { reference := "REFW2", id := 9, gatewayResponse := "Declined" } =
      wDb2 :=
  ⟨settlement_noop_guards.1 wDb1 "REFW1"
      { id := 9, status := "success", gatewayResponse := "ok" } wOrder1
      rfl rfl,
   settlement_noop_guards.2.1 wDb1
      { reference := "REFW1", id := 9, gatewayResponse := "ok" } wOrder1
      rfl rfl,
   settlement_noop_guards.2.2 wDb2
      { reference := "REFW2", id := 9, gatewayResponse := "Declined" }
      wOrder2 rfl rfl⟩

/-- Completed (paid) order together with its product, as left behind by a
success settlement. -/
def cDb2 : DB :=
  { products := [(2, { name := "Gadget", price := 2000, isActive := true,
                       image := "",
                       inventory := { quantity := 4, reserved := 0,
                                      lowStockThreshold := 10 } })],
    orders := [{ orderId := 4, orderNumber := "ORD-20260101-00004",
                 userId := 8,
                 items := [{ productId := 2, name := "Gadget",
                             price := 2000, quantity := 1, image := "" }],
                 shippingAddress := "addr",
                 pricing := { subtotal := 2000, shipping := 1500, tax := 0,
                              discount := 0, total := 3500 },
                 status := OrderStatus.confirmed,
                 payment := { method := "paystack",
                              status := PaymentStatus.completed,
                              transactionId := some "77",
                              reference := "REFC2", paidAt := true },
                 timeline := [] }] }

/-- C5 (counterexample): the webhook failure handler guards only on
`payment.status = failed`, so a `charge.failed` event for an order whose
payment is already `completed` reverts the terminal outcome: in `cDb2` the
payment status moves from `completed` to `failed`. -/
theorem webhook_failure_reverts_completed :
    paymentStatusOfRef cDb2 "REFC2" = some PaymentStatus.completed ∧
    paymentStatusOfRef
        (PaymentController.handleFailedPayment cDb2
          { reference := "REFC2", id := 9, gatewayResponse := "Declined" })
        "REFC2" =
      some PaymentStatus.failed := by
  exact ⟨rfl, rfl⟩

/-- C5 (amended): the entry points never revert exactly the outcomes their
guards cover — the verify entry point never changes any stored state for an
order whose payment is already `completed` (its `completed` check precedes
both branches), the webhook success handler is a no-op on orders already
`completed`, and the webhook failure handler is a no-op on orders already
`failed`.  A failure event for a `completed` order via the webhook, or a
success event for a `failed` order via either entry point, does overwrite
the terminal outcome (see the counterexample). -/
theorem terminal_outcome_guards :
    (∀ (db : DB) (ref : String) (gOk : Bool) (v : GatewayVerifyData)
      (o : Order),
      findOrderByRef db.orders ref = some o →
      o.payment.status = PaymentStatus.completed →
      (PaymentController.verifyPayment db ref gOk v).2 = db) ∧
    (∀ (db : DB) (d : WebhookData) (o : Order),
      findOrderByRef db.orders d.reference = some o →
      o.payment.status = PaymentStatus.completed →
      PaymentController.handleSuccessfulPayment db d = db) ∧
    (∀ (db : DB) (d : WebhookData) (o : Order),
      findOrderByRef db.orders d.reference = some o →
      o.payment.status = PaymentStatus.failed →
      PaymentController.handleFailedPayment db d = db) := by
  refine ⟨?_, ?_, ?_⟩
  · intro db ref gOk v o hf hc
    cases gOk
    · simp [PaymentController.verifyPayment]
    · simp [PaymentController.verifyPayment, hf, hc]
  · intro db d o hf hc
    simp [PaymentController.handleSuccessfulPayment, hf, hc]
  · intro db d o hf hc
    simp [PaymentController.handleFailedPayment, hf, hc]

/-- Witness for the amended C5 theorem: a verify call with a failed gateway
check on the completed order of `wDb1`, the webhook success handler on
`wDb1`, and the webhook failure handler on the failed order of `wDb2`. -/
theorem terminal_outcome_guards_witness :
    (PaymentController.verifyPayment wDb1 "REFW1" false
        { id := 9, status := "failed", gatewayResponse := "Declined" }).2 =
      wDb1 ∧
    PaymentController.handleSuccessfulPayment wDb1
        { reference := "REFW1", id := 10, gatewayResponse := "ok" } = wDb1 ∧
    PaymentController.handleFailedPayment wDb2
        { reference := "REFW2", id := 10, gatewayResponse := "Declined" } =
      wDb2 :=
  ⟨terminal_outcome_guards.1 wDb1 "REFW1" false
      { id := 9, status := "failed", gatewayResponse := "Declined" } wOrder1
      rfl rfl,
   terminal_outcome_guards.2.1 wDb1
      { reference := "REFW1", id := 10, gatewayResponse := "ok" } wOrder1
      rfl rfl,
   terminal_outcome_guards.2.2 wDb2
      { reference := "REFW2", id := 10, gatewayResponse := "Declined" }
      wOrder2 rfl rfl⟩

/-- C4: whenever `createOrder` ends in any non-created result — empty cart,
inactive product or insufficient stock on any cart line — the transaction
is aborted, so the returned database equals the input database: no
reservation applied earlier in the loop survives and no order is
inserted. -/
theorem createOrder_failure_rolls_back :
    ∀ (db : DB) (userId : Nat) (cart : List CartLine) (addr ref : String)
      (oid y m d cnt : Nat),
      (OrderController.createOrder db userId cart addr ref
        oid y m d cnt).1.isCreated = false →
      (OrderController.createOrder db userId cart addr ref
        oid y m d cnt).2 = db := by
  intro db userId cart addr ref oid y m d cnt h
  by_cases hc : cart = []
  · simp [OrderController.createOrder, hc]
  · cases hcl : checkoutLoop db.products cart db.products [] 0 with
    | error e => simp [OrderController.createOrder, hc, hcl]
    | ok t =>
      obtain ⟨sess, items, subtotal⟩ := t
      exfalso
      simp [OrderController.createOrder, hc, hcl,
        CreateOrderResult.isCreated] at h

/-- Witness for C4: a one-line cart whose product is inactive; the checkout
fails and the database comes back unchanged. -/
theorem createOrder_failure_rolls_back_witness :
    (OrderController.createOrder
      { products := [(1, { name := "Off", price := 500, isActive := false,
                           image := "",
                           inventory := { quantity := 9, reserved := 0,
                                          lowStockThreshold := 2 } })],
        orders := [] }
      1 [{ productId := 1, quantity := 2, cartPrice := 500 }]
      "addr" "REF" 1 2026 1 1 0).2 =
    { products := [(1, { name := "Off", price := 500, isActive := false,
                         image := "",
                         inventory := { quantity := 9, reserved := 0,
                                        lowStockThreshold := 2 } })],
      orders := [] } :=
  createOrder_failure_rolls_back
    { products := [(1, { name := "Off", price := 500, isActive := false,
                         image := "",
                         inventory := { quantity := 9, reserved := 0,
                                        lowStockThreshold := 2 } })],
      orders := [] }
    1 [{ productId := 1, quantity := 2, cartPrice := 500 }]
    "addr" "REF" 1 2026 1 1 0 (by decide)

/-- C6: every order created by `createOrder` satisfies the pricing policy:
`tax = 0`, `discount = 0`, `total = subtotal + shipping + tax - discount`,
`shipping = 0` iff the subtotal reaches the free-shipping threshold of
10000 and 1500 otherwise, `subtotal` is the sum of snapshotted
`unitPrice × quantity` over the order lines, and the unit price of every line is
the current catalog price of the product in the database at checkout time (the
price stored in the cart line is never used). -/
theorem createOrder_pricing_correct :
    ∀ (db : DB) (userId : Nat) (cart : List CartLine) (addr ref : String)
      (oid y m d cnt : Nat) (o : Order) (db1 : DB),
      OrderController.createOrder db userId cart addr ref oid y m d cnt =
        (CreateOrderResult.created o, db1) →
      o.pricing.tax = 0 ∧ o.pricing.discount = 0 ∧
      o.pricing.total = o.pricing.subtotal + o.pricing.shipping +
        o.pricing.tax - o.pricing.discount ∧
      o.pricing.shipping = (if o.pricing.subtotal ≥ freeShippingThreshold
        then 0 else flatShippingFee) ∧
      o.pricing.subtotal = sumLines o.items ∧
      (∀ it ∈ o.items, ∃ line ∈ cart, ∃ p,
        findProduct db.products it.productId = some p ∧
        it.productId = line.productId ∧ it.quantity = line.quantity ∧
        it.price = p.price) := by
  intro db userId cart addr ref oid y m d cnt o db1 h
  by_cases hc : cart = []
  · simp [OrderController.createOrder, hc] at h
  · cases hcl : checkoutLoop db.products cart db.products [] 0 with
    | error e => simp [OrderController.createOrder, hc, hcl] at h
    | ok t =>
      obtain ⟨sess, items, subtotal⟩ := t
      simp only [OrderController.createOrder, if_neg hc, hcl,
        Prod.mk.injEq, CreateOrderResult.created.injEq] at h
      obtain ⟨ho, -⟩ := h
      obtain ⟨extra, he1, he2, he3⟩ :=
        checkoutLoop_spec cart db.products db.products [] 0 sess items
          subtotal hcl
      rw [List.nil_append] at he1
      subst he1
      rw [zero_add] at he2
      subst he2
      subst ho
      refine ⟨rfl, rfl, rfl, rfl, rfl, ?_⟩
      intro it hit
      obtain ⟨line, hline, p, hfp, -, heq⟩ := he3 it hit
      subst heq
      exact ⟨line, hline, p, hfp, rfl, rfl, rfl⟩

/-- Concrete checkout database: one active product at catalog price 800
with nine on hand. -/
def db6 : DB :=
  { products := [(1, { name := "W", price := 800, isActive := true,
                       image := "",
                       inventory := { quantity := 9, reserved := 0,
                                      lowStockThreshold := 2 } })],
    orders := [] }

/-- Concrete cart: two units of product 1, with a stale cart price 700. -/
def cart6 : List CartLine :=
  [{ productId := 1, quantity := 2, cartPrice := 700 }]

/-- The order `createOrder db6 1 cart6 "addr" "REF" 1 2026 1 1 0`
creates. -/
def order6 : Order :=
  { orderId := 1, orderNumber := "ORD-20260101-00001", userId := 1,
    items := [{ productId := 1, name := "W", price := 800, quantity := 2,
                image := "" }],
    shippingAddress := "addr",
    pricing := { subtotal := 1600, shipping := 1500, tax := 0,
                 discount := 0, total := 3100 },
    status := OrderStatus.pending,
    payment := { method := "paystack", status := PaymentStatus.pending,
                 transactionId := none, reference := "REF",
                 paidAt := false },
    timeline := [{ status := "pending", note := some "Order created" }] }

/-- The database state after that checkout: two units reserved and the new
order inserted. -/
def db6res : DB :=
  { products := [(1, { name := "W", price := 800, isActive := true,
                       image := "",
                       inventory := { quantity := 9, reserved := 2,
                                      lowStockThreshold := 2 } })],
    orders := [order6] }

/-- Witness for C6 at the concrete checkout `db6`/`cart6`: catalog price
800 is snapshotted (not the stale cart price 700), subtotal 1600, shipping
1500, total 3100. -/
theorem createOrder_pricing_correct_witness :
    order6.pricing.tax = 0 ∧ order6.pricing.discount = 0 ∧
    order6.pricing.total = order6.pricing.subtotal +
      order6.pricing.shipping + order6.pricing.tax -
      order6.pricing.discount ∧
    order6.pricing.shipping = (if order6.pricing.subtotal ≥
      freeShippingThreshold then 0 else flatShippingFee) ∧
    order6.pricing.subtotal = sumLines order6.items ∧
    (∀ it ∈ order6.items, ∃ line ∈ cart6, ∃ p,
      findProduct db6.products it.productId = some p ∧
      it.productId = line.productId ∧ it.quantity = line.quantity ∧
      it.price = p.price) :=
  createOrder_pricing_correct db6 1 cart6 "addr" "REF" 1 2026 1 1 0
    order6 db6res rfl

theorem padStart_length_of_le (n : Nat) (c : Char) (s : String)
    (h : s.length ≤ n) : (padStart n c s).length = n := by
  unfold padStart
  by_cases h2 : s.length ≥ n
  · rw [if_pos h2]; omega
  · rw [if_neg h2]
    have hm : (String.mk (List.replicate (n - s.length) c)).length =
        n - s.length := by
      show (List.replicate (n - s.length) c).length = n - s.length
      exact List.length_replicate _ _
    rw [String.length_append, hm]
    omega

/-- C9: every order returned by a successful `createOrder` starts with
status `pending`, payment status `pending`, a timeline holding exactly the
one entry `pending / "Order created"`, and an order number
`ORD-YYYYMMDD-NNNNN` where the month and day are zero-padded to two digits
and `NNNNN` is the prior order count of the day plus one, zero-padded to five
digits (exactly five digits whenever `count + 1` has at most five). -/
theorem createOrder_initial_state :
    ∀ (db : DB) (userId : Nat) (cart : List CartLine) (addr ref : String)
      (oid y m d cnt : Nat) (o : Order) (db1 : DB),
      OrderController.createOrder db userId cart addr ref oid y m d cnt =
        (CreateOrderResult.created o, db1) →
      o.status = OrderStatus.pending ∧
      o.payment.status = PaymentStatus.pending ∧
      o.timeline = [{ status := "pending", note := some "Order created" }] ∧
      o.orderNumber = "ORD-" ++ toString y ++
        padStart 2 '0' (toString m) ++ padStart 2 '0' (toString d) ++
        "-" ++ padStart 5 '0' (toString (cnt + 1)) ∧
      ((toString (cnt + 1)).length ≤ 5 →
        (padStart 5 '0' (toString (cnt + 1))).length = 5) := by
  intro db userId cart addr ref oid y m d cnt o db1 h
  by_cases hc : cart = []
  · simp [OrderController.createOrder, hc] at h
  · cases hcl : checkoutLoop db.products cart db.products [] 0 with
    | error e => simp [OrderController.createOrder, hc, hcl] at h
    | ok t =>
      obtain ⟨sess, items, subtotal⟩ := t
      simp only [OrderController.createOrder, if_neg hc, hcl,
        Prod.mk.injEq, CreateOrderResult.created.injEq] at h
      obtain ⟨ho, -⟩ := h
      subst ho
      exact ⟨rfl, rfl, rfl, rfl, padStart_length_of_le 5 '0' _⟩

/-- Witness for C9 at the concrete checkout `db6`/`cart6` (first order of
2026-01-01): order number `ORD-20260101-00001`. -/
theorem createOrder_initial_state_witness :
    order6.status = OrderStatus.pending ∧
    order6.payment.status = PaymentStatus.pending ∧
    order6.timeline =
      [{ status := "pending", note := some "Order created" }] ∧
    order6.orderNumber = "ORD-" ++ toString 2026 ++
      padStart 2 '0' (toString 1) ++ padStart 2 '0' (toString 1) ++
      "-" ++ padStart 5 '0' (toString (0 + 1)) ∧
    ((toString (0 + 1)).length ≤ 5 →
      (padStart 5 '0' (toString (0 + 1))).length = 5) :=
  createOrder_initial_state db6 1 cart6 "addr" "REF" 1 2026 1 1 0
    order6 db6res rfl

/-- C7: `cancelOrder` succeeds only while the order is `pending`.  For an
order in `confirmed`, `processing` or `shipped` the endpoint answers the
invalid-state error and leaves the database (order and inventory)
unchanged.  For a `pending` order it releases the reservation of every line
(the `reserved` counter of each product drops by the total line quantity for it,
on-hand unchanged), sets the status to `cancelled` and appends the
cancellation timeline entry, leaving the payment untouched. -/
theorem cancelOrder_pending_only :
    (∀ (db : DB) (userId orderId : Nat) (reason : Option String)
      (o : Order),
      findOrderById db.orders orderId userId = some o →
      (o.status = OrderStatus.confirmed ∨
       o.status = OrderStatus.processing ∨
       o.status = OrderStatus.shipped) →
      OrderController.cancelOrder db userId orderId reason =
        (CancelResp.cannotCancel, db)) ∧
    (∀ (db : DB) (userId orderId : Nat) (reason : Option String)
      (o : Order),
      findOrderById db.orders orderId userId = some o →
      o.status = OrderStatus.pending →
      ∃ o1, OrderController.cancelOrder db userId orderId reason =
          (CancelResp.cancelled o1,
           { products := applyItems releaseUpd db.products o.items,
             orders := updateOrderById db.orders orderId userId o1 }) ∧
        o1.status = OrderStatus.cancelled ∧
        o1.timeline = o.timeline ++
          [{ status := "cancelled",
             note := some (reason.getD "Order cancelled by user") }] ∧
        o1.payment = o.payment ∧ o1.items = o.items ∧
        (∀ pid, findProduct (applyItems releaseUpd db.products o.items)
            pid =
          (findProduct db.products pid).map (fun p =>
            { p with inventory := { p.inventory with
                reserved :=
                  p.inventory.reserved - itemsQty o.items pid } }))) := by
  constructor
  · intro db userId orderId reason o hf hst
    have hcb : o.canBeCancelled = false := by
      rcases hst with h | h | h <;> simp [Order.canBeCancelled, h]
    simp [OrderController.cancelOrder, hf, hcb]
  · intro db userId orderId reason o hf hp
    have hcb : o.canBeCancelled = true := by
      simp [Order.canBeCancelled, hp]
    let o1 : Order :=
      { o with
          status := OrderStatus.cancelled,
          timeline := o.timeline ++
            [{ status := "cancelled",
               note := some (reason.getD "Order cancelled by user") }] }
    refine ⟨o1, ?_, rfl, rfl, rfl, rfl, ?_⟩
    · simp [OrderController.cancelOrder, hf, hcb, Order.cancelOrder, hp,
        o1]
    · intro pid
      exact applyItems_release o.items db.products pid

/-- Witness for C7: cancelling the confirmed order of `wDb1` is refused
and changes nothing. -/
theorem cancelOrder_pending_only_witness :
    OrderController.cancelOrder wDb1 7 1 (some "changed my mind") =
      (CancelResp.cannotCancel, wDb1) :=
  cancelOrder_pending_only.1 wDb1 7 1 (some "changed my mind") wOrder1
    rfl (Or.inl rfl)

/-- C8: the webhook endpoint answers 401 exactly when the signature header
differs from the HMAC-SHA512 of the raw payload under the shared secret,
and answers `200 {success:true}` exactly when it matches — for every event
kind (including unknown ones, which are ignored) and even when the internal
event handler throws. -/
theorem handleWebhook_response_spec :
    ∀ (hmacSha512 : String → String) (db : DB) (signature payload : String)
      (kind : WebhookEventKind) (d : WebhookData) (handlerThrows : Bool),
      ((PaymentController.handleWebhook hmacSha512 db signature payload
          kind d handlerThrows).1 = WebhookResp.unauthorized ↔
        hmacSha512 payload ≠ signature) ∧
      ((PaymentController.handleWebhook hmacSha512 db signature payload
          kind d handlerThrows).1 = WebhookResp.acknowledged ↔
        hmacSha512 payload = signature) := by
  intro hmac db sig payload kind d ht
  by_cases h : hmac payload = sig
  · have h1 : (PaymentController.handleWebhook hmac db sig payload kind d
        ht).1 = WebhookResp.acknowledged := by
      cases ht <;> cases kind <;>
        simp [PaymentController.handleWebhook, h]
    simp [h1, h]
  · have h1 : (PaymentController.handleWebhook hmac db sig payload kind d
        ht).1 = WebhookResp.unauthorized := by
      simp [PaymentController.handleWebhook, h]
    simp [h1, h]

/-- C10: once the order is found, `initializePayment` writes nothing, and
it refuses — without contacting the gateway — every order already paid
(`payment.status = completed`) and every cancelled or failed order; the
outbound gateway initialize call happens exactly on the remaining
orders, with the order total and stored payment reference. -/
theorem initPayment_terminal_guard :
    ∀ (db : DB) (userId orderId : Nat) (email : String) (o : Order),
      findOrderById db.orders orderId userId = some o →
      (PaymentController.initPayment db userId orderId email).2 = db ∧
      (o.payment.status = PaymentStatus.completed →
        (PaymentController.initPayment db userId orderId email).1 =
          InitPaymentResp.alreadyPaid) ∧
      (o.payment.status ≠ PaymentStatus.completed →
        (o.status = OrderStatus.cancelled ∨
         o.status = OrderStatus.failed) →
        (PaymentController.initPayment db userId orderId email).1 =
          InitPaymentResp.notPayable) ∧
      (o.payment.status ≠ PaymentStatus.completed →
        ¬(o.status = OrderStatus.cancelled ∨
          o.status = OrderStatus.failed) →
        (PaymentController.initPayment db userId orderId email).1 =
          InitPaymentResp.gatewayCalled email o.pricing.total
            o.payment.reference) := by
  intro db userId orderId email o hf
  refine ⟨?_, ?_, ?_, ?_⟩
  · simp only [PaymentController.initPayment, hf]
    split_ifs <;> rfl
  · intro hc
    simp [PaymentController.initPayment, hf, hc]
  · intro hnc hcf
    simp [PaymentController.initPayment, hf, hnc, hcf]
  · intro hnc hncf
    simp [PaymentController.initPayment, hf, hnc, hncf]

/-- Witness for C10: the already-paid order of `wDb1` is refused with
`alreadyPaid` and the database is untouched. -/
theorem initPayment_terminal_guard_witness :
    (PaymentController.initPayment wDb1 7 1 "buyer@example.com").2 = wDb1 ∧
    (PaymentController.initPayment wDb1 7 1 "buyer@example.com").1 =
      InitPaymentResp.alreadyPaid :=
  ⟨(initPayment_terminal_guard wDb1 7 1 "buyer@example.com" wOrder1
      rfl).1,
   (initPayment_terminal_guard wDb1 7 1 "buyer@example.com" wOrder1
      rfl).2.1 rfl⟩

end Ecommerce
